import Mathlib

/-!
Verification of the `netmaker_management` Ansible module
(`src/library/netmaker_management.py`) against its specification.

The core logic of the module is shallowly embedded below:
  * JSON / Python values are modelled by `PyVal` (floats do not occur in
    the data of this module and are omitted).
  * Python dictionaries are association lists `List (String × PyVal)`;
    real Python dictionaries never carry a duplicate key, and all lookups
    use the first occurrence.
  * Python `==` is modelled by `pyEq` (booleans compare equal to the
    integers 0/1, as in Python).
  * The HTTP transport (`NetmakerAPI._request`) is modelled as a pure
    function of the received response; reconcilers are pure functions of
    the observed remote state returning the list of API calls they issue.
-/

/-- Model of the Python/JSON values handled by the module.  `none` is
Python `None` (JSON `null`). -/
inductive PyVal where
  | none : PyVal
  | bool : Bool → PyVal
  | int : Int → PyVal
  | str : String → PyVal
  | list : List PyVal → PyVal
  | dict : List (String × PyVal) → PyVal
deriving Repr

/-- First-occurrence lookup in an association list, the model of Python
dictionary access.  Returns `Option.none` when the key is absent, which is
distinct from the key being present with stored value `PyVal.none`. -/
def lookupd : List (String × PyVal) → String → Option PyVal
  | [], _ => Option.none
  | (k, v) :: rest, key => if k == key then some v else lookupd rest key

/-- Python `key in dict`. -/
def containsKey (d : List (String × PyVal)) (key : String) : Bool :=
  (lookupd d key).isSome

/-- Python `dict.get(key, default)`. -/
def dictGet (d : List (String × PyVal)) (key : String) (dflt : PyVal) : PyVal :=
  match lookupd d key with
  | some v => v
  | Option.none => dflt

/-- Python `d[key] = v`: replace the first binding in place, or append a
new binding at the end (dictionaries preserve insertion order). -/
def setKey : List (String × PyVal) → String → PyVal → List (String × PyVal)
  | [], key, v => [(key, v)]
  | (k, w) :: rest, key, v =>
      if k == key then (k, v) :: rest else (k, w) :: setKey rest key v

/-- Python `del d[key]` (a real dictionary holds the key at most once). -/
def eraseKey : List (String × PyVal) → String → List (String × PyVal)
  | [], _ => []
  | (k, w) :: rest, key =>
      if k == key then rest else (k, w) :: eraseKey rest key

/-- Python `base.update(upd)`: apply every binding of `upd` in order. -/
def dictUpdate (base upd : List (String × PyVal)) : List (String × PyVal) :=
  upd.foldl (fun acc kv => setKey acc kv.1 kv.2) base

/-- Python truthiness of a value (`if x:`). -/
def pyTruthy : PyVal → Bool
  | PyVal.none => false
  | PyVal.bool b => b
  | PyVal.int n => !(n == 0)
  | PyVal.str s => !(s == "")
  | PyVal.list xs => !xs.isEmpty
  | PyVal.dict fs => !fs.isEmpty

mutual

/-- Python `==` on the modelled values.  Booleans are numbers in Python:
`True == 1` and `False == 0`.  Dictionaries compare as key/value mappings
(Python dictionaries hold each key once). -/
def pyEq : PyVal → PyVal → Bool
  | PyVal.none, PyVal.none => true
  | PyVal.bool a, PyVal.bool b => a == b
  | PyVal.bool a, PyVal.int n => (if a then (1 : Int) else 0) == n
  | PyVal.int n, PyVal.bool a => n == (if a then (1 : Int) else 0)
  | PyVal.int m, PyVal.int n => m == n
  | PyVal.str s, PyVal.str t => s == t
  | PyVal.list xs, PyVal.list ys => pyEqList xs ys
  | PyVal.dict xs, PyVal.dict ys =>
      (xs.length == ys.length) && pyEqFields xs ys
  | _, _ => false
termination_by a b => sizeOf a + sizeOf b

/-- Elementwise Python `==` of two lists. -/
def pyEqList : List PyVal → List PyVal → Bool
  | [], [] => true
  | x :: xs, y :: ys => pyEq x y && pyEqList xs ys
  | _, _ => false
termination_by xs ys => sizeOf xs + sizeOf ys

/-- Every binding of the first dictionary is matched by the second. -/
def pyEqFields : List (String × PyVal) → List (String × PyVal) → Bool
  | [], _ => true
  | (k, v) :: rest, ys => pyLookupCmp k v ys && pyEqFields rest ys
termination_by xs ys => sizeOf xs + sizeOf ys

/-- Look the key up in the second dictionary and compare the values. -/
def pyLookupCmp : String → PyVal → List (String × PyVal) → Bool
  | _, _, [] => false
  | k, v, (k2, w) :: rest => if k2 == k then pyEq v w else pyLookupCmp k v rest
termination_by _ v ys => sizeOf v + sizeOf ys

end

/-- Python `x in lits` for a list of literals (membership via `==`). -/
def pyMem (v : PyVal) (lits : List PyVal) : Bool :=
  lits.any (fun w => pyEq v w)

/-! ## Equality evaluators (`networks_equal`, `extclients_equal`) -/

/-- The comparable network fields (`networks_equal`, lines 414-418). -/
def comparableFields : List String :=
  ["addressrange", "addressrange6", "defaultextclientdns",
   "defaultinterface", "defaultpostdown", "defaultpostup",
   "defaultkeepalive", "defaultmtu"]

/-- The per-field default map of `networks_equal` (lines 420-423). -/
def fieldDefaults : List (String × PyVal) :=
  [("defaultpostdown", PyVal.str ""), ("defaultpostup", PyVal.str "")]

/-- The literals of `existing_value in ["yes", "true", True, 1]`
(line 437). -/
def boolTruthyLits : List PyVal :=
  [PyVal.str "yes", PyVal.str "true", PyVal.bool true, PyVal.int 1]

/-- One iteration of the `networks_equal` loop (lines 425-444): `true`
means the field does not force an update (the loop continues), `false`
means `networks_equal` returns `False`. -/
def netFieldOk (existing desired : List (String × PyVal)) (field : String) : Bool :=
  match lookupd desired field with
  | Option.none => true
  | some desired_value =>
    if !(containsKey existing field) && !(containsKey fieldDefaults field) then
      true
    else
      let existing_value := dictGet existing field (dictGet fieldDefaults field PyVal.none)
      match desired_value with
      | PyVal.bool b =>
          let ev := match existing_value with
            | PyVal.none => dictGet fieldDefaults field (PyVal.bool false)
            | v => v
          pyMem ev boolTruthyLits == b
      | dv =>
          if pyEq dv (PyVal.str "") && pyMem existing_value [PyVal.none, PyVal.str ""] then
            true
          else
            pyEq existing_value dv

/-- `networks_equal(existing, desired)` (lines 412-446): every comparable
field passes its per-field check. -/
def networks_equal (existing desired : List (String × PyVal)) : Bool :=
  comparableFields.all (fun field => netFieldOk existing desired field)

/-- The comparable external-client fields (line 451). -/
def extComparableFields : List String :=
  ["dns", "extraallowedips", "enabled", "postup", "postdown"]

/-- Python `x or []` as used in `set(existing_value or [])` (line 460). -/
def pyOrEmptyList (v : PyVal) : PyVal :=
  if pyTruthy v then v else PyVal.list []

/-- The elements `set(...)` iterates over.  Python iterates a list over
its elements, a string over its one-character substrings and a dictionary
over its keys; building a set from any other truthy value raises
`TypeError` in Python (the theorems below never reach that case, and it is
totalised here as the empty collection). -/
def setElems : PyVal → List PyVal
  | PyVal.list xs => xs
  | PyVal.str s => s.data.map (fun c => PyVal.str (String.mk [c]))
  | PyVal.dict fs => fs.map (fun kv => PyVal.str kv.1)
  | _ => []

/-- Python `set(xs) == set(ys)`: mutual membership under `==` (for the
hashable values that can legally populate a Python set). -/
def pySetEq (xs ys : List PyVal) : Bool :=
  xs.all (fun x => ys.any (fun y => pyEq x y)) &&
  ys.all (fun y => xs.any (fun x => pyEq y x))

/-- One iteration of the `extclients_equal` loop (lines 453-466). -/
def extFieldOk (existing desired : List (String × PyVal)) (field : String) : Bool :=
  match lookupd desired field with
  | Option.none => true
  | some desired_value =>
    let existing_value := dictGet existing field PyVal.none
    match desired_value with
    | PyVal.list ds =>
        pySetEq (setElems (pyOrEmptyList existing_value))
                (setElems (pyOrEmptyList (PyVal.list ds)))
    | dv =>
        if pyEq dv (PyVal.str "") && pyMem existing_value [PyVal.none, PyVal.str ""] then
          true
        else
          pyEq existing_value dv

/-- `extclients_equal(existing, desired)` (lines 449-468). -/
def extclients_equal (existing desired : List (String × PyVal)) : Bool :=
  extComparableFields.all (fun field => extFieldOk existing desired field)

/-! ## Transport layer (`NetmakerAPI._request`, lines 288-334) -/

/-- An HTTP response as seen by `_request`: the status code, whether the
body is non-empty (`response.content`), and the JSON decoding of the body
(`Option.none` when the body is empty or does not parse). -/
structure HttpResponse where
  status : Nat
  content : Bool
  decoded : Option PyVal

/-- Outcome of `_request`: the returned Python value, or a raised
exception carrying a message. -/
inductive ReqOutcome where
  | value : PyVal → ReqOutcome
  | error : String → ReqOutcome
deriving Repr

/-- The check of lines 309-315: the body decodes to a dictionary whose
`Message` compares equal to "no result found".  A body that does not
decode, or on which `.get` raises, falls through (`except: pass`). -/
def noResultFound (decoded : Option PyVal) : Bool :=
  match decoded with
  | some (PyVal.dict fs) => pyEq (dictGet fs "Message" PyVal.none) (PyVal.str "no result found")
  | _ => false

/-- Python `str()` of a value, as interpolated into error messages (the
container cases are abbreviated; no theorem below inspects them). -/
def pyStrOf : PyVal → String
  | PyVal.none => "None"
  | PyVal.bool b => if b then "True" else "False"
  | PyVal.int n => toString n
  | PyVal.str s => s
  | PyVal.list _ => "[...]"
  | PyVal.dict _ => "\x7b...\x7d"

/-- Message of the exception raised for a non-success status
(lines 324-334): the text of the underlying HTTP error - modelled
abstractly as a function of the status code - with the `Message` field of
a JSON body appended when one is present. -/
def requestErrMsg (r : HttpResponse) : String :=
  let base := "API request failed: " ++ toString r.status ++ " error"
  match r.decoded with
  | some (PyVal.dict fs) =>
      match lookupd fs "Message" with
      | some m => base ++ " - " ++ pyStrOf m
      | Option.none => base
  | _ => base

/-- `NetmakerAPI._request` as a function of the received response
(lines 301-322): 404 is `None`; 204 is `True`; 500 with a decoded
"no result found" message is `None`; any other 4xx/5xx status raises;
otherwise a non-empty body is returned decoded (a body that fails to
decode raises `json.JSONDecodeError`) and an empty body is `True`. -/
def nmRequest (r : HttpResponse) : ReqOutcome :=
  if r.status == 404 then ReqOutcome.value PyVal.none
  else if r.status == 204 then ReqOutcome.value (PyVal.bool true)
  else if r.status == 500 && noResultFound r.decoded then ReqOutcome.value PyVal.none
  else if 400 <= r.status && r.status < 600 then ReqOutcome.error (requestErrMsg r)
  else if r.content then
    match r.decoded with
    | some v => ReqOutcome.value v
    | Option.none => ReqOutcome.error "JSON decode error"
  else ReqOutcome.value (PyVal.bool true)

/-- `NetmakerAPI.authenticate` (lines 336-349) as a function of the value
returned by `_request`: requires a truthy result carrying
`Response.AuthToken`, otherwise raises. -/
def authenticate (result : PyVal) : Except String PyVal :=
  let failed : Bool :=
    match result with
    | PyVal.dict fs =>
        !(pyTruthy result) || !(containsKey fs "Response") ||
          (match lookupd fs "Response" with
           | some (PyVal.dict rs) => !(containsKey rs "AuthToken")
           | _ => true)
    | _ => true
  if failed then Except.error "Authentication failed: No token in response"
  else
    match result with
    | PyVal.dict fs =>
        match lookupd fs "Response" with
        | some (PyVal.dict rs) => Except.ok (dictGet rs "AuthToken" PyVal.none)
        | _ => Except.error "Authentication failed: No token in response"
    | _ => Except.error "Authentication failed: No token in response"

/-- The failure surface of `main` (line 689): any exception raised while
managing a resource is reported as this single message. -/
def mainErrorMsg (resource_type msg : String) : String :=
  "Error managing Netmaker " ++ resource_type ++ ": " ++ msg

/-- The message reported by `main` when authentication fails for an
invocation without a master key (lines 660-663 and 688-689), as a
function of the value the authentication request returned;
`Option.none` when authentication succeeds. -/
def mainAuthFailureMsg (resource_type : String) (authResult : PyVal) : Option String :=
  match authenticate authResult with
  | Except.error e => some (mainErrorMsg resource_type e)
  | Except.ok _ => Option.none

/-! ## Gateway resolver (`find_ingress_gateway`, lines 373-383) -/

/-- Python `dict.get(key)` on a node object; on a non-dictionary Python
would raise `AttributeError` (totalised as `None`; the theorems below
only apply it to dictionaries). -/
def pyGet (v : PyVal) (key : String) : PyVal :=
  match v with
  | PyVal.dict fs => dictGet fs key PyVal.none
  | _ => PyVal.none

/-- Python `node["id"]`; a missing key would raise `KeyError` (totalised
as `None`; the theorems below only apply it to nodes carrying an id). -/
def pyIndex (v : PyVal) (key : String) : PyVal :=
  match v with
  | PyVal.dict fs => dictGet fs key PyVal.none
  | _ => PyVal.none

/-- The condition of line 380: the ingress-gateway flag of the node is
truthy under either of its two field names
(`node.get("isingressgateway") or node.get("is_gw")`). -/
def nodeQual (node : PyVal) : Bool :=
  pyTruthy (pyGet node "isingressgateway") || pyTruthy (pyGet node "is_gw")

/-- The scan of lines 379-381: return the id of the first qualifying node. -/
def scanIngress : List PyVal → Option PyVal
  | [] => Option.none
  | node :: rest =>
      if nodeQual node then some (pyIndex node "id") else scanIngress rest

/-- The list a `for` loop iterates over (nodes arrive as a JSON array;
iteration over a non-iterable raises `TypeError` in Python and cannot be
reached by the theorems below). -/
def pyElems : PyVal → List PyVal
  | PyVal.list xs => xs
  | _ => []

/-- `NetmakerAPI.find_ingress_gateway` (lines 373-383) as a function of
the value `list_nodes` returned. -/
def findIngressGateway (network_id : String) (nodes : PyVal) : Except String PyVal :=
  if !(pyTruthy nodes) then
    Except.error ("No nodes found in network \x27" ++ network_id ++ "\x27")
  else
    match scanIngress (pyElems nodes) with
    | some gid => Except.ok gid
    | Option.none =>
        Except.error ("No ingress gateway found in network \x27" ++ network_id ++ "\x27")

/-! ## Reconcilers (`manage_network`, `manage_extclient`)

Each reconciler is a pure function of the observed remote state (the
value the initial fetch returned: `None` or a JSON object) and of a
response oracle for the API calls it issues.  Besides the result record
it returns the ordered list of API calls made after the initial fetch. -/

/-- An API call issued by a reconciler after its initial fetch. -/
inductive ApiCall where
  | createNetwork : List (String × PyVal) → ApiCall
  | updateNetwork : String → List (String × PyVal) → ApiCall
  | deleteNetwork : String → ApiCall
  | listNodes : String → ApiCall
  | createExtclient : String → PyVal → List (String × PyVal) → ApiCall
  | updateExtclient : String → String → List (String × PyVal) → ApiCall
  | deleteExtclient : String → String → ApiCall
deriving Repr

/-- Whether an API call mutates remote state (`list_nodes` is the only
read among the calls a reconciler issues after its fetch). -/
def isMutating : ApiCall → Bool
  | ApiCall.listNodes _ => false
  | _ => true

/-- The result record built by both reconcilers (lines 475-479). -/
structure ManageResult where
  changed : Bool
  resource : PyVal
  msg : String
deriving Repr

/-- Python truthiness of an observed fetch result (`if existing_network:`,
`if existing_client:`): `None` and the empty object are falsy. -/
def observedTruthy (existing : Option (List (String × PyVal))) : Bool :=
  match existing with
  | some fs => !fs.isEmpty
  | Option.none => false

/-- `manage_network` (lines 471-525).  `existing_network` is the value
`api.get_network(name)` returned: `Option.none` models Python `None` and
`some fs` a JSON object (the only shapes the endpoint produces). -/
def manage_network (check_mode : Bool) (respond : ApiCall → PyVal)
    (name state : String) (network_data : List (String × PyVal))
    (existing_network : Option (List (String × PyVal))) :
    ManageResult × List ApiCall :=
  if state == "present" then
    if observedTruthy existing_network then
      if networks_equal (existing_network.getD []) network_data then
        ({ changed := false, resource := PyVal.dict (existing_network.getD []),
           msg := "Network \x27" ++ name ++ "\x27 already exists with desired configuration" }, [])
      else if check_mode then
        ({ changed := true, resource := PyVal.none,
           msg := "Network \x27" ++ name ++ "\x27 would be updated (check mode)" }, [])
      else
        let update_data := dictUpdate (existing_network.getD []) network_data
        ({ changed := true, resource := respond (ApiCall.updateNetwork name update_data),
           msg := "Network \x27" ++ name ++ "\x27 updated" },
         [ApiCall.updateNetwork name update_data])
    else
      if check_mode then
        ({ changed := true, resource := PyVal.none,
           msg := "Network \x27" ++ name ++ "\x27 would be created (check mode)" }, [])
      else
        ({ changed := true, resource := respond (ApiCall.createNetwork network_data),
           msg := "Network \x27" ++ name ++ "\x27 created" },
         [ApiCall.createNetwork network_data])
  else if state == "absent" then
    if observedTruthy existing_network then
      if check_mode then
        ({ changed := true, resource := PyVal.none,
           msg := "Network \x27" ++ name ++ "\x27 would be deleted (check mode)" }, [])
      else
        ({ changed := true, resource := PyVal.none,
           msg := "Network \x27" ++ name ++ "\x27 deleted" },
         [ApiCall.deleteNetwork name])
    else
      ({ changed := false, resource := PyVal.none,
         msg := "Network \x27" ++ name ++ "\x27 does not exist" }, [])
  else
    ({ changed := false, resource := PyVal.none, msg := "" }, [])

/-- The `ManageResult` of one `manage_extclient` outcome, named to keep
the multi-line literals below readable. -/
def extResult (changed : Bool) (resource : PyVal) (msg : String) : ManageResult :=
  { changed := changed, resource := resource, msg := msg }

/-- `manage_extclient` (lines 528-587).  `existing_client` is the value
`api.get_extclient(network, name)` returned (`None` or a client object).
The create cell may raise through `find_ingress_gateway`, hence the
`Except`; the call list records the calls issued up to that point. -/
def manage_extclient (check_mode : Bool) (respond : ApiCall → PyVal)
    (name network ingress_gateway_id state : String)
    (client_data : List (String × PyVal))
    (existing_client : Option (List (String × PyVal))) :
    Except String ManageResult × List ApiCall :=
  if state == "present" then
    if observedTruthy existing_client then
      if extclients_equal (existing_client.getD []) client_data then
        (Except.ok (extResult false (PyVal.dict (existing_client.getD []))
           ("External client \x27" ++ name ++ "\x27 already exists with desired configuration")), [])
      else if check_mode then
        (Except.ok (extResult true PyVal.none
           ("External client \x27" ++ name ++ "\x27 would be updated (check mode)")), [])
      else
        let update_data := dictUpdate (existing_client.getD []) client_data
        (Except.ok (extResult true (respond (ApiCall.updateExtclient network name update_data))
           ("External client \x27" ++ name ++ "\x27 updated")),
         [ApiCall.updateExtclient network name update_data])
    else
      if check_mode then
        (Except.ok (extResult true PyVal.none
           ("External client \x27" ++ name ++ "\x27 would be created (check mode)")), [])
      else if ingress_gateway_id == "auto" then
        match findIngressGateway network (respond (ApiCall.listNodes network)) with
        | Except.error e => (Except.error e, [ApiCall.listNodes network])
        | Except.ok gid =>
            (Except.ok (extResult true (respond (ApiCall.createExtclient network gid client_data))
               ("External client \x27" ++ name ++ "\x27 created")),
             [ApiCall.listNodes network, ApiCall.createExtclient network gid client_data])
      else
        (Except.ok (extResult true
           (respond (ApiCall.createExtclient network (PyVal.str ingress_gateway_id) client_data))
           ("External client \x27" ++ name ++ "\x27 created")),
         [ApiCall.createExtclient network (PyVal.str ingress_gateway_id) client_data])
  else if state == "absent" then
    if observedTruthy existing_client then
      if check_mode then
        (Except.ok (extResult true PyVal.none
           ("External client \x27" ++ name ++ "\x27 would be deleted (check mode)")), [])
      else
        (Except.ok (extResult true PyVal.none
           ("External client \x27" ++ name ++ "\x27 deleted")),
         [ApiCall.deleteExtclient network name])
    else
      (Except.ok (extResult false PyVal.none
         ("External client \x27" ++ name ++ "\x27 does not exist")), [])
  else
    (Except.ok (extResult false PyVal.none ""), [])

/-! ## Module invocation (`main`, lines 590-689)

The caller supplies a parameter set; the Ansible argument specification
(lines 604-631) fills in the declared defaults before `main` reads
`module.params`. -/

/-- The network-specific parameter names (lines 592-596). -/
def network_params : List String :=
  ["addressrange", "addressrange6", "defaultextclientdns",
   "defaultinterface", "defaultpostdown", "defaultpostup",
   "defaultkeepalive", "defaultmtu", "islocal"]

/-- The external-client-specific parameter names (lines 599-601). -/
def extclient_params : List String :=
  ["dns", "extraallowedips", "enabled", "postup", "postdown"]

/-- The parameters of one invocation as the caller supplied them;
`Option.none` means the caller did not mention the option. -/
structure CallerArgs where
  resource_type : String
  name : String
  network : Option String := Option.none
  ingress_gateway_id : Option String := Option.none
  state : Option String := Option.none
  base_url : String := ""
  master_key : Option String := Option.none
  username : Option String := Option.none
  password : Option String := Option.none
  validate_certs : Option Bool := Option.none
  addressrange : Option String := Option.none
  addressrange6 : Option String := Option.none
  defaultextclientdns : Option String := Option.none
  defaultinterface : Option String := Option.none
  defaultpostdown : Option String := Option.none
  defaultpostup : Option String := Option.none
  defaultkeepalive : Option Int := Option.none
  defaultmtu : Option Int := Option.none
  islocal : Option Bool := Option.none
  dns : Option String := Option.none
  extraallowedips : Option (List String) := Option.none
  enabled : Option Bool := Option.none
  postup : Option String := Option.none
  postdown : Option String := Option.none

/-- An optional string parameter as it appears in `module.params`. -/
def optStr : Option String → PyVal
  | some s => PyVal.str s
  | Option.none => PyVal.none

/-- An optional integer parameter as it appears in `module.params`. -/
def optInt : Option Int → PyVal
  | some n => PyVal.int n
  | Option.none => PyVal.none

/-- An optional list-of-strings parameter as it appears in
`module.params`. -/
def optStrList : Option (List String) → PyVal
  | some xs => PyVal.list (xs.map PyVal.str)
  | Option.none => PyVal.none

/-- `module.params` after the argument specification applied its declared
defaults (lines 604-631): `state` defaults to "present",
`ingress_gateway_id` to "auto", `username` to "oriol", `validate_certs`
to `True`, `islocal` to `False` and `enabled` to `True`; every other
optional parameter defaults to `None`. -/
def moduleParams (a : CallerArgs) : List (String × PyVal) :=
  [("resource_type", PyVal.str a.resource_type),
   ("name", PyVal.str a.name),
   ("network", optStr a.network),
   ("ingress_gateway_id", PyVal.str (a.ingress_gateway_id.getD "auto")),
   ("state", PyVal.str (a.state.getD "present")),
   ("base_url", PyVal.str a.base_url),
   ("master_key", optStr a.master_key),
   ("username", PyVal.str (a.username.getD "oriol")),
   ("password", optStr a.password),
   ("validate_certs", PyVal.bool (a.validate_certs.getD true)),
   ("addressrange", optStr a.addressrange),
   ("addressrange6", optStr a.addressrange6),
   ("defaultextclientdns", optStr a.defaultextclientdns),
   ("defaultinterface", optStr a.defaultinterface),
   ("defaultpostdown", optStr a.defaultpostdown),
   ("defaultpostup", optStr a.defaultpostup),
   ("defaultkeepalive", optInt a.defaultkeepalive),
   ("defaultmtu", optInt a.defaultmtu),
   ("islocal", PyVal.bool (a.islocal.getD false)),
   ("dns", optStr a.dns),
   ("extraallowedips", optStrList a.extraallowedips),
   ("enabled", PyVal.bool (a.enabled.getD true)),
   ("postup", optStr a.postup),
   ("postdown", optStr a.postdown)]

/-- The filter of lines 672 and 681: a parameter contributes a binding
exactly when its value in `module.params` is not `None`. -/
def keepParam (params : List (String × PyVal)) (p : String) : Option (String × PyVal) :=
  match lookupd params p with
  | some PyVal.none => Option.none
  | some v => some (p, v)
  | Option.none => Option.none

/-- The desired-state dictionary built by `main`: the identifier key
first, then every listed parameter whose value in `module.params` is not
`None`, in list order (lines 668-673 and 677-682). -/
def buildResourceData (id_key name : String) (param_names : List String)
    (params : List (String × PyVal)) : List (String × PyVal) :=
  (id_key, PyVal.str name) :: param_names.filterMap (keepParam params)

/-- The network desired-state data of an invocation (lines 668-673). -/
def networkDataOf (a : CallerArgs) : List (String × PyVal) :=
  buildResourceData "netid" a.name network_params (moduleParams a)

/-- The external-client desired-state data of an invocation
(lines 677-682). -/
def extclientDataOf (a : CallerArgs) : List (String × PyVal) :=
  buildResourceData "clientid" a.name extclient_params (moduleParams a)

/-! ## Substring containment (for reasoning about messages) -/

/-- Whether the character list starts with the given pattern. -/
def charsStartWith : List Char → List Char → Bool
  | _, [] => true
  | [], _ :: _ => false
  | c :: cs, d :: ds => c == d && charsStartWith cs ds

/-- Whether the pattern occurs contiguously in the character list. -/
def charsInclude : List Char → List Char → Bool
  | [], t => t.isEmpty
  | c :: cs, t => charsStartWith (c :: cs) t || charsInclude cs t

/-- Whether `t` occurs as a contiguous substring of `s`. -/
def strContains (s t : String) : Bool :=
  charsInclude s.data t.data

/-! ## Helper lemmas -/

/-- The gateway-determinism example node list of the specification. -/
def gatewayExampleNodes : List PyVal :=
  [PyVal.dict [("id", PyVal.str "a"), ("isingressgateway", PyVal.bool false)],
   PyVal.dict [("id", PyVal.str "b"), ("isingressgateway", PyVal.bool true)],
   PyVal.dict [("id", PyVal.str "c"), ("isingressgateway", PyVal.bool true)]]

/-- A well-formed node object: a dictionary carrying an id (the shape on
which the Python scan runs without raising). -/
def nodeWF : PyVal → Bool
  | PyVal.dict fs => containsKey fs "id"
  | _ => false

theorem scanIngress_eq_find (ns : List PyVal) :
    scanIngress ns = Option.map (fun n => pyIndex n "id") (ns.find? nodeQual) := by
  induction ns with
  | nil => rfl
  | cons n rest ih =>
      by_cases h : nodeQual n
      · simp [scanIngress, List.find?_cons, h]
      · simp [scanIngress, List.find?_cons, h, ih]

/-! ## C3: the network evaluator on an empty desired state -/

/-- C3: for every existing network object, `networks_equal(existing, {})`
is `true` - every field absent from the desired state is skipped. -/
theorem c3_networks_equal_empty_desired (existing : List (String × PyVal)) :
    networks_equal existing [] = true := rfl

/-! ## C2: not-found normalization in the transport layer -/

/-- C2 counterexample: the claim says the `True` returned for a 204
response is distinct from any JSON payload, but a 200 response whose body
is the JSON value `true` is returned as the very same value, because
`response.json()` decodes it to Python `True`. -/
theorem c2_counterexample :
    nmRequest ⟨200, true, some (PyVal.bool true)⟩ = nmRequest ⟨204, false, Option.none⟩ := rfl

/-- C2 (amended): a 404 response and a 500 response whose decoded body
carries the "no result found" message both yield `None`, so every caller
observes them identically; a 204 response yields the success marker
`True`, which differs from the absent marker `None` and from every JSON
payload other than a literal JSON `true` body. -/
theorem c2_amended_not_found_normalization
    (c c2 c3 : Bool) (d d2 d3 : Option PyVal)
    (hmsg : noResultFound d2 = true) :
    nmRequest ⟨404, c, d⟩ = ReqOutcome.value PyVal.none ∧
    nmRequest ⟨500, c2, d2⟩ = ReqOutcome.value PyVal.none ∧
    nmRequest ⟨404, c, d⟩ = nmRequest ⟨500, c2, d2⟩ ∧
    nmRequest ⟨204, c3, d3⟩ = ReqOutcome.value (PyVal.bool true) ∧
    ReqOutcome.value (PyVal.bool true) ≠ ReqOutcome.value PyVal.none ∧
    (∀ v : PyVal, v ≠ PyVal.bool true →
      nmRequest ⟨200, true, some v⟩ ≠ nmRequest ⟨204, c3, d3⟩) := by
  refine ⟨rfl, ?_, ?_, rfl, ?_, ?_⟩
  · simp [nmRequest, hmsg]
  · simp [nmRequest, hmsg]
  · intro h
    cases h
  · intro v hv h
    simp only [nmRequest] at h
    norm_num at h
    exact hv h

/-- C2 witness: the amended theorem applied at a concrete 500 body and a
concrete non-`true` payload. -/
theorem c2_witness :
    nmRequest ⟨500, true, some (PyVal.dict [("Message", PyVal.str "no result found")])⟩ =
      ReqOutcome.value PyVal.none ∧
    nmRequest ⟨200, true, some (PyVal.str "x")⟩ ≠ nmRequest ⟨204, false, Option.none⟩ := by
  have h := c2_amended_not_found_normalization true true false
    Option.none (some (PyVal.dict [("Message", PyVal.str "no result found")])) Option.none
    (by simp [noResultFound, dictGet, lookupd, pyEq])
  exact ⟨h.2.1, h.2.2.2.2.2 (PyVal.str "x") (fun hx => PyVal.noConfusion hx)⟩

/-! ## C5: gateway resolution -/

/-- C5: gateway resolution fails with the "no nodes" error on an absent
or empty node list; otherwise it returns the id of the first node in
listed order whose ingress-gateway flag (under either field name) is
truthy, and fails with the "no ingress gateway" error when none
qualifies; on the example list it returns "b". -/
theorem c5_gateway_resolution (network_id : String) (ns : List PyVal) :
    (findIngressGateway network_id PyVal.none =
      Except.error ("No nodes found in network \x27" ++ network_id ++ "\x27")) ∧
    (findIngressGateway network_id (PyVal.list []) =
      Except.error ("No nodes found in network \x27" ++ network_id ++ "\x27")) ∧
    (ns ≠ [] → ns.all nodeWF = true →
      findIngressGateway network_id (PyVal.list ns) =
        match ns.find? nodeQual with
        | some n => Except.ok (pyIndex n "id")
        | Option.none =>
            Except.error ("No ingress gateway found in network \x27" ++ network_id ++ "\x27")) ∧
    findIngressGateway "net1" (PyVal.list gatewayExampleNodes) = Except.ok (PyVal.str "b") := by
  refine ⟨rfl, rfl, ?_, rfl⟩
  intro hne _hwf
  cases ns with
  | nil => exact absurd rfl hne
  | cons n rest =>
      simp only [findIngressGateway, pyTruthy, pyElems, List.isEmpty_cons,
        Bool.not_false, Bool.not_true, Bool.false_eq_true, if_false,
        scanIngress_eq_find]
      cases (n :: rest).find? nodeQual <;> simp

/-- C5 witness: the scan characterization applied to the example list. -/
theorem c5_witness :
    findIngressGateway "net1" (PyVal.list gatewayExampleNodes) =
      match gatewayExampleNodes.find? nodeQual with
      | some n => Except.ok (pyIndex n "id")
      | Option.none => Except.error ("No ingress gateway found in network \x27net1\x27") := by
  refine (c5_gateway_resolution "net1" gatewayExampleNodes).2.2.1 ?_ rfl
  intro h
  simp [gatewayExampleNodes] at h

/-! ## C9: boolean coercion in the network evaluator -/

/-- C9: in the network evaluator, when the desired value of a comparable
field is a boolean and the field passes the not-yet-comparable guard
(it is present in the existing object or has a per-field default), the
existing value is coerced - a stored null is first replaced by the
per-field default, `False` when there is none - and the field passes the
comparison exactly when the coerced truthiness equals the desired
boolean; exactly the values "yes", "true", `True` and `1` are truthy
under the coercion; in particular an existing "yes" matches a desired
`true`. -/
theorem c9_boolean_coercion (field : String)
    (existing desired : List (String × PyVal)) (b : Bool)
    (hf : comparableFields.contains field = true)
    (hd : lookupd desired field = some (PyVal.bool b))
    (hg : (containsKey existing field || containsKey fieldDefaults field) = true) :
    (netFieldOk existing desired field =
      (pyMem (match lookupd existing field with
              | some PyVal.none => dictGet fieldDefaults field (PyVal.bool false)
              | some v => v
              | Option.none => dictGet fieldDefaults field PyVal.none)
        boolTruthyLits == b)) ∧
    (∀ v : PyVal, pyMem v boolTruthyLits = true ↔
      (v = PyVal.str "yes" ∨ v = PyVal.str "true" ∨ v = PyVal.bool true ∨ v = PyVal.int 1)) ∧
    networks_equal [("addressrange", PyVal.str "yes")] [("addressrange", PyVal.bool true)] = true := by
  refine ⟨?_, ?_, ?_⟩
  · have hguard : (!(containsKey existing field) && !(containsKey fieldDefaults field)) = false := by
      cases h1 : containsKey existing field <;> cases h2 : containsKey fieldDefaults field <;>
        simp_all
    cases hle : lookupd existing field with
    | none =>
        have h1 : containsKey existing field = false := by
          simp [containsKey, hle]
        have h2 : containsKey fieldDefaults field = true := by
          simpa [h1] using hg
        have hld : lookupd fieldDefaults field = some (PyVal.str "") := by
          by_cases hpd : ("defaultpostdown" == field) = true
          · simp [fieldDefaults, lookupd, hpd]
          · by_cases hpu : ("defaultpostup" == field) = true
            · simp [fieldDefaults, lookupd, hpd, hpu]
            · exfalso
              simp [containsKey, fieldDefaults, lookupd, hpd, hpu] at h2
        simp [netFieldOk, hd, hguard, dictGet, hle, hld]
    | some v =>
        cases v with
        | none =>
            simp only [netFieldOk, hd, hguard, Bool.false_eq_true, if_false, dictGet, hle]
        | bool b2 => simp [netFieldOk, hd, hguard, dictGet, hle]
        | int n => simp [netFieldOk, hd, hguard, dictGet, hle]
        | str s => simp [netFieldOk, hd, hguard, dictGet, hle]
        | list l => simp [netFieldOk, hd, hguard, dictGet, hle]
        | dict fs => simp [netFieldOk, hd, hguard, dictGet, hle]
  · intro v
    cases v with
    | none => simp [pyMem, boolTruthyLits, pyEq]
    | bool b2 => cases b2 <;> simp [pyMem, boolTruthyLits, pyEq]
    | int n => simp [pyMem, boolTruthyLits, pyEq]
    | str s => simp [pyMem, boolTruthyLits, pyEq]
    | list l => simp [pyMem, boolTruthyLits, pyEq, pyEqList]
    | dict fs => simp [pyMem, boolTruthyLits, pyEq]
  · simp [networks_equal, comparableFields, netFieldOk, lookupd, dictGet, containsKey,
      fieldDefaults, pyMem, boolTruthyLits, pyEq]

/-- C9 witness: the coercion applied where the existing value is "yes"
and the desired value is `true`. -/
theorem c9_witness :
    networks_equal [("addressrange", PyVal.str "yes")] [("addressrange", PyVal.bool true)] = true :=
  (c9_boolean_coercion "addressrange" [("addressrange", PyVal.str "yes")]
    [("addressrange", PyVal.bool true)] true (by rfl) (by rfl) (by rfl)).2.2

/-! ## C6: the concrete network-creation scenario -/

/-- The invocation of the creation scenario: the caller sets exactly the
name "net1", the address range and the MTU (plus credentials). -/
def scenarioArgs : CallerArgs :=
  { resource_type := "network", name := "net1",
    addressrange := some "10.0.0.0/24", defaultmtu := some 1420,
    master_key := some "mk" }

/-- C6 counterexample: in the creation scenario the claim asserts the
create payload holds exactly the three fields netid, addressrange and
defaultmtu, but the issued create call also carries the defaulted
`islocal` field (the argument specification defaults it to `False`, so
`module.params["islocal"]` is never `None`). -/
theorem c6_counterexample :
    (manage_network false (fun _ => PyVal.none) "net1" "present"
        (networkDataOf scenarioArgs) Option.none).2 =
      [ApiCall.createNetwork (networkDataOf scenarioArgs)] ∧
    containsKey (networkDataOf scenarioArgs) "islocal" = true := ⟨rfl, rfl⟩

/-- C6 (amended): in the creation scenario the reconciler issues exactly
one create call whose payload holds netid, addressrange and defaultmtu as
supplied plus the always-defaulted `islocal = False`, and reports
`changed = true` with a message containing "created". -/
theorem c6_amended_create_scenario :
    manage_network false (fun _ => PyVal.none) "net1" "present"
        (networkDataOf scenarioArgs) Option.none =
      ({ changed := true, resource := PyVal.none, msg := "Network \x27net1\x27 created" },
       [ApiCall.createNetwork
          [("netid", PyVal.str "net1"),
           ("addressrange", PyVal.str "10.0.0.0/24"),
           ("defaultmtu", PyVal.int 1420),
           ("islocal", PyVal.bool false)]]) ∧
    strContains "Network \x27net1\x27 created" "created" = true := ⟨rfl, rfl⟩

/-! ## C1: the desired-state data holds exactly the forwarded fields -/

/-- Membership of a string in a list of parameter names. -/
def memStr (p : String) : List String → Bool
  | [] => false
  | q :: qs => (q == p) || memStr p qs

theorem containsKey_cons (k : String) (v : PyVal)
    (d : List (String × PyVal)) (p : String) :
    containsKey ((k, v) :: d) p = ((k == p) || containsKey d p) := by
  by_cases h : (k == p) = true <;> simp [containsKey, lookupd, h]

theorem keepParam_fst (params : List (String × PyVal)) (q : String) (x : String × PyVal)
    (h : keepParam params q = some x) : x.1 = q := by
  unfold keepParam at h
  rcases hl : lookupd params q with _ | v
  · rw [hl] at h
    cases h
  · rw [hl] at h
    cases v with
    | none => cases h
    | bool b => cases h; rfl
    | int n => cases h; rfl
    | str s => cases h; rfl
    | list l => cases h; rfl
    | dict fs => cases h; rfl

theorem containsKey_filterMapParams (params : List (String × PyVal))
    (ps : List String) (p : String) :
    containsKey (ps.filterMap (keepParam params)) p =
      (memStr p ps && (keepParam params p).isSome) := by
  induction ps with
  | nil => simp [containsKey, lookupd, memStr]
  | cons q qs ih =>
      rcases hk : keepParam params q with _ | x
      · rw [List.filterMap_cons_none hk]
        rw [ih]
        by_cases hqp : (q == p) = true
        · have : q = p := by simpa using hqp
          subst this
          simp [memStr, hqp, hk]
        · simp [memStr, hqp]
      · rw [List.filterMap_cons_some hk]
        have hx1 : x.1 = q := keepParam_fst params q x hk
        rcases x with ⟨x1, x2⟩
        simp only at hx1
        subst hx1
        rw [containsKey_cons, ih]
        by_cases hqp : (x1 == p) = true
        · have hxp : x1 = p := by simpa using hqp
          subst hxp
          simp [memStr, hk]
        · have hqp2 : (x1 == p) = false := by simpa using hqp
          simp [memStr, hqp2]

/-- C1 counterexample input: a network invocation in which the caller
sets only the mandatory options and never mentions `islocal`. -/
def c1Args : CallerArgs :=
  { resource_type := "network", name := "net1", master_key := some "mk" }

/-- C1 counterexample: the caller of `c1Args` did not supply `islocal`,
yet the desired-state data passed to the network reconciler carries
`islocal = False`, because the argument specification defaults it. -/
theorem c1_counterexample :
    c1Args.islocal = Option.none ∧
    lookupd (networkDataOf c1Args) "islocal" = some (PyVal.bool false) := ⟨rfl, rfl⟩

/-- C1 (amended): the desired-state data passed to a reconciler holds the
identifier key, the resource-specific fields the caller explicitly set,
and the two fields with a declared default (`islocal` for networks,
`enabled` for external clients), which are always present; any other
parameter never appears. -/
theorem c1_amended_desired_state_fields (a : CallerArgs) :
    (∀ p : String, containsKey (networkDataOf a) p =
      (("netid" == p) || (memStr p network_params && (keepParam (moduleParams a) p).isSome))) ∧
    (∀ p : String, containsKey (extclientDataOf a) p =
      (("clientid" == p) || (memStr p extclient_params && (keepParam (moduleParams a) p).isSome))) ∧
    (keepParam (moduleParams a) "islocal").isSome = true ∧
    (keepParam (moduleParams a) "enabled").isSome = true ∧
    (keepParam (moduleParams a) "addressrange").isSome = a.addressrange.isSome ∧
    (keepParam (moduleParams a) "addressrange6").isSome = a.addressrange6.isSome ∧
    (keepParam (moduleParams a) "defaultextclientdns").isSome = a.defaultextclientdns.isSome ∧
    (keepParam (moduleParams a) "defaultinterface").isSome = a.defaultinterface.isSome ∧
    (keepParam (moduleParams a) "defaultpostdown").isSome = a.defaultpostdown.isSome ∧
    (keepParam (moduleParams a) "defaultpostup").isSome = a.defaultpostup.isSome ∧
    (keepParam (moduleParams a) "defaultkeepalive").isSome = a.defaultkeepalive.isSome ∧
    (keepParam (moduleParams a) "defaultmtu").isSome = a.defaultmtu.isSome ∧
    (keepParam (moduleParams a) "dns").isSome = a.dns.isSome ∧
    (keepParam (moduleParams a) "extraallowedips").isSome = a.extraallowedips.isSome ∧
    (keepParam (moduleParams a) "postup").isSome = a.postup.isSome ∧
    (keepParam (moduleParams a) "postdown").isSome = a.postdown.isSome := by
  refine ⟨?_, ?_, rfl, rfl, ?_, ?_, ?_, ?_, ?_, ?_, ?_, ?_, ?_, ?_, ?_, ?_⟩
  · intro p
    rw [networkDataOf, buildResourceData, containsKey_cons, containsKey_filterMapParams]
  · intro p
    rw [extclientDataOf, buildResourceData, containsKey_cons, containsKey_filterMapParams]
  · cases h : a.addressrange <;> simp [keepParam, moduleParams, lookupd, optStr, h]
  · cases h : a.addressrange6 <;> simp [keepParam, moduleParams, lookupd, optStr, h]
  · cases h : a.defaultextclientdns <;> simp [keepParam, moduleParams, lookupd, optStr, h]
  · cases h : a.defaultinterface <;> simp [keepParam, moduleParams, lookupd, optStr, h]
  · cases h : a.defaultpostdown <;> simp [keepParam, moduleParams, lookupd, optStr, h]
  · cases h : a.defaultpostup <;> simp [keepParam, moduleParams, lookupd, optStr, h]
  · cases h : a.defaultkeepalive <;> simp [keepParam, moduleParams, lookupd, optInt, h]
  · cases h : a.defaultmtu <;> simp [keepParam, moduleParams, lookupd, optInt, h]
  · cases h : a.dns <;> simp [keepParam, moduleParams, lookupd, optStr, h]
  · cases h : a.extraallowedips <;> simp [keepParam, moduleParams, lookupd, optStrList, h]
  · cases h : a.postup <;> simp [keepParam, moduleParams, lookupd, optStr, h]
  · cases h : a.postdown <;> simp [keepParam, moduleParams, lookupd, optStr, h]

/-! ## C8: failure messages -/

theorem charsStartWith_append (t r : List Char) :
    charsStartWith (t ++ r) t = true := by
  induction t with
  | nil => simp [charsStartWith]
  | cons c cs ih => simp [charsStartWith, ih]

theorem charsInclude_of_start (l t : List Char) (h : charsStartWith l t = true) :
    charsInclude l t = true := by
  cases l with
  | nil =>
      cases t with
      | nil => rfl
      | cons d ds => simp [charsStartWith] at h
  | cons c cs => simp [charsInclude, h]

theorem charsInclude_append_left (p l t : List Char) (h : charsInclude l t = true) :
    charsInclude (p ++ l) t = true := by
  induction p with
  | nil => simpa using h
  | cons a p ih => simp [charsInclude, ih]

/-- C8 counterexample: an invocation with resource name "net1" whose
authentication response carries no token fails with a message that names
the resource type but not the identifying name of the resource. -/
theorem c8_counterexample :
    mainAuthFailureMsg "network" (PyVal.dict []) =
      some "Error managing Netmaker network: Authentication failed: No token in response" ∧
    strContains "Error managing Netmaker network: Authentication failed: No token in response"
      "net1" = false ∧
    strContains "Error managing Netmaker network: Authentication failed: No token in response"
      "network" = true := ⟨rfl, rfl, rfl⟩

/-- C8 (amended): every failure surfaced through the exception handler of
`main` is reported with a message that includes the resource type; the
identifying name of the resource appears only when the underlying error
text carries it (authentication failures, for instance, do not carry
it). -/
theorem c8_amended_error_includes_resource_type (resource_type msg : String) :
    strContains (mainErrorMsg resource_type msg) resource_type = true := by
  have h : strContains (mainErrorMsg resource_type msg) resource_type =
      charsInclude ((("Error managing Netmaker ".data ++ resource_type.data) ++
        ": ".data) ++ msg.data) resource_type.data := rfl
  rw [h, List.append_assoc, List.append_assoc]
  apply charsInclude_append_left
  apply charsInclude_of_start
  exact charsStartWith_append resource_type.data (": ".data ++ msg.data)

/-! ## C4: set comparison in the external-client evaluator -/

theorem pyEq_str_right (v : PyVal) (s : String) :
    pyEq v (PyVal.str s) = true ↔ v = PyVal.str s := by
  cases v <;> simp [pyEq]

theorem pyEq_str_left (s : String) (v : PyVal) :
    pyEq (PyVal.str s) v = true ↔ v = PyVal.str s := by
  cases v with
  | str t =>
      simp only [pyEq, beq_iff_eq, PyVal.str.injEq]
      exact eq_comm
  | none => simp [pyEq]
  | bool b => simp [pyEq]
  | int n => simp [pyEq]
  | list l => simp [pyEq]
  | dict fs => simp [pyEq]

theorem setElems_pyOr_list (l : List PyVal) :
    setElems (pyOrEmptyList (PyVal.list l)) = l := by
  cases l <;> rfl

theorem extclients_equal_single (existing : List (String × PyVal)) (v : PyVal) :
    extclients_equal existing [("extraallowedips", v)] =
      extFieldOk existing [("extraallowedips", v)] "extraallowedips" := by
  simp [extclients_equal, extComparableFields, extFieldOk, lookupd]

theorem pySetEq_map_str_congr (E : List PyVal) (xs ys : List String)
    (h : pySetEq (xs.map PyVal.str) (ys.map PyVal.str) = true) :
    pySetEq E (xs.map PyVal.str) = pySetEq E (ys.map PyVal.str) := by
  have hmem : (∀ s, s ∈ xs → s ∈ ys) ∧ (∀ t, t ∈ ys → t ∈ xs) := by
    simp only [pySetEq, Bool.and_eq_true, List.all_eq_true, List.any_eq_true,
      List.mem_map] at h
    obtain ⟨h1, h2⟩ := h
    constructor
    · intro s hs
      obtain ⟨y, ⟨t, ht, rfl⟩, hy⟩ := h1 (PyVal.str s) ⟨s, hs, rfl⟩
      have hst : s = t := PyVal.str.inj ((pyEq_str_right _ _).mp hy)
      exact hst ▸ ht
    · intro t ht
      obtain ⟨x, ⟨s, hs, rfl⟩, hx⟩ := h2 (PyVal.str t) ⟨t, ht, rfl⟩
      have hts : t = s := PyVal.str.inj ((pyEq_str_right _ _).mp hx)
      exact hts ▸ hs
  rw [Bool.eq_iff_iff]
  simp only [pySetEq, Bool.and_eq_true, List.all_eq_true, List.any_eq_true, List.mem_map]
  constructor
  · rintro ⟨h1, h2⟩
    constructor
    · intro e he
      obtain ⟨y, ⟨s, hs, rfl⟩, hy⟩ := h1 e he
      obtain rfl := (pyEq_str_right _ _).mp hy
      exact ⟨PyVal.str s, ⟨s, hmem.1 s hs, rfl⟩, by simp [pyEq]⟩
    · intro y hy
      obtain ⟨t, ht, rfl⟩ := hy
      obtain ⟨e, he, hey⟩ := h2 (PyVal.str t) ⟨t, hmem.2 t ht, rfl⟩
      exact ⟨e, he, hey⟩
  · rintro ⟨h1, h2⟩
    constructor
    · intro e he
      obtain ⟨y, ⟨t, ht, rfl⟩, hy⟩ := h1 e he
      obtain rfl := (pyEq_str_right _ _).mp hy
      exact ⟨PyVal.str t, ⟨t, hmem.2 t ht, rfl⟩, by simp [pyEq]⟩
    · intro y hy
      obtain ⟨s, hs, rfl⟩ := hy
      obtain ⟨e, he, hey⟩ := h2 (PyVal.str s) ⟨s, hmem.1 s hs, rfl⟩
      exact ⟨e, he, hey⟩

/-- C4 counterexample: the claim treats an absent or null list on either
side as the empty set, but a null desired `extraallowedips` is compared
by exact equality: against an existing empty list (also the empty set)
the evaluator answers `false` where the claim demands `true`. -/
theorem c4_counterexample :
    extclients_equal [("extraallowedips", PyVal.list [])]
      [("extraallowedips", PyVal.none)] = false := by
  simp [extclients_equal, extComparableFields, extFieldOk, lookupd, dictGet, pyEq, pyMem]

/-- C4 (amended): the external-client evaluator compares list-valued
fields as sets - two desired lists equal as sets receive the same verdict
(order and duplicates irrelevant) - and an absent or null list on the
existing side is treated as the empty set; a null on the desired side is
instead compared by exact equality and an absent desired field is
skipped. -/
theorem c4_amended_set_semantics (existing : List (String × PyVal)) (xs ys : List String)
    (hset : pySetEq (xs.map PyVal.str) (ys.map PyVal.str) = true) :
    (extclients_equal existing [("extraallowedips", PyVal.list (xs.map PyVal.str))] =
      extclients_equal existing [("extraallowedips", PyVal.list (ys.map PyVal.str))]) ∧
    ((lookupd existing "extraallowedips" = Option.none ∨
        lookupd existing "extraallowedips" = some PyVal.none) →
      extclients_equal existing [("extraallowedips", PyVal.list (xs.map PyVal.str))] =
        xs.isEmpty) := by
  have e1 : ∀ l : List PyVal,
      extFieldOk existing [("extraallowedips", PyVal.list l)] "extraallowedips" =
        pySetEq (setElems (pyOrEmptyList (dictGet existing "extraallowedips" PyVal.none))) l := by
    intro l
    show pySetEq _ (setElems (pyOrEmptyList (PyVal.list l))) = _
    rw [setElems_pyOr_list]
  constructor
  · rw [extclients_equal_single, extclients_equal_single, e1, e1]
    exact pySetEq_map_str_congr _ xs ys hset
  · intro hex
    have hE : dictGet existing "extraallowedips" PyVal.none = PyVal.none := by
      rcases hex with h | h <;> simp [dictGet, h]
    rw [extclients_equal_single, e1, hE]
    cases xs with
    | nil => rfl
    | cons s rest => simp [pySetEq, pyOrEmptyList, pyTruthy, setElems]

/-- C4 witness: the amended theorem applied to a pair of reversed lists
and an existing client storing a null list. -/
theorem c4_witness :
    extclients_equal [("extraallowedips", PyVal.none)]
        [("extraallowedips", PyVal.list (["a", "b"].map PyVal.str))] =
      extclients_equal [("extraallowedips", PyVal.none)]
        [("extraallowedips", PyVal.list (["b", "a"].map PyVal.str))] ∧
    extclients_equal [("extraallowedips", PyVal.none)]
        [("extraallowedips", PyVal.list (["a", "b"].map PyVal.str))] = ["a", "b"].isEmpty := by
  have h := c4_amended_set_semantics [("extraallowedips", PyVal.none)] ["a", "b"] ["b", "a"]
    (by simp [pySetEq, pyEq])
  exact ⟨h.1, h.2 (Or.inr rfl)⟩

/-! ## C7: dry-run non-mutation -/

/-- C7: in every reconciliation cell of both reconcilers, a dry run
issues no mutating transport call, and the `changed` value it reports
equals the one a real run reports from the same observed state (for the
external-client reconciler, whenever the real run completes without
raising). -/
theorem c7_dry_run_non_mutation
    (respond : ApiCall → PyVal) (name network ingress_gateway_id state : String)
    (network_data client_data : List (String × PyVal))
    (existing_network existing_client : Option (List (String × PyVal))) :
    ((manage_network true respond name state network_data existing_network).2.filter
      isMutating = []) ∧
    ((manage_network true respond name state network_data existing_network).1.changed =
      (manage_network false respond name state network_data existing_network).1.changed) ∧
    ((manage_extclient true respond name network ingress_gateway_id state client_data
        existing_client).2.filter isMutating = []) ∧
    (∀ r r' : ManageResult,
      (manage_extclient false respond name network ingress_gateway_id state client_data
        existing_client).1 = Except.ok r →
      (manage_extclient true respond name network ingress_gateway_id state client_data
        existing_client).1 = Except.ok r' →
      r'.changed = r.changed) := by
  refine ⟨?_, ?_, ?_, ?_⟩
  · by_cases h1 : (state == "present") = true <;>
    by_cases h2 : (state == "absent") = true <;>
    by_cases h3 : observedTruthy existing_network = true <;>
    by_cases h4 : networks_equal (existing_network.getD []) network_data = true <;>
      simp [manage_network, h1, h2, h3, h4]
  · by_cases h1 : (state == "present") = true <;>
    by_cases h2 : (state == "absent") = true <;>
    by_cases h3 : observedTruthy existing_network = true <;>
    by_cases h4 : networks_equal (existing_network.getD []) network_data = true <;>
      simp [manage_network, h1, h2, h3, h4]
  · by_cases h1 : (state == "present") = true <;>
    by_cases h2 : (state == "absent") = true <;>
    by_cases h3 : observedTruthy existing_client = true <;>
    by_cases h4 : extclients_equal (existing_client.getD []) client_data = true <;>
      simp [manage_extclient, h1, h2, h3, h4]
  · intro r r' hr hr'
    by_cases h1 : (state == "present") = true <;>
    by_cases h2 : (state == "absent") = true <;>
    by_cases h3 : observedTruthy existing_client = true <;>
    by_cases h4 : extclients_equal (existing_client.getD []) client_data = true <;>
    by_cases h5 : (ingress_gateway_id == "auto") = true <;>
      simp only [manage_extclient, h1, h2, h3, h4, h5, if_true, if_false,
        Bool.false_eq_true, extResult] at hr hr'
    all_goals
      first
      | (cases hr; cases hr'; rfl)
      | (rcases hfg : findIngressGateway network (respond (ApiCall.listNodes network))
           with e | gid <;> rw [hfg] at hr <;> simp only [] at hr <;> cases hr <;>
           cases hr' <;> rfl)

/-- C7 witness: the external-client create cell with a literal gateway,
dry run against real run from the same observed absent state. -/
theorem c7_witness :
    (extResult true PyVal.none
        ("External client \x27c1\x27 would be created (check mode)")).changed =
      (extResult true PyVal.none ("External client \x27c1\x27 created")).changed :=
  (c7_dry_run_non_mutation (fun _ => PyVal.none) "c1" "n" "g1" "present" [] []
    Option.none Option.none).2.2.2
    (extResult true PyVal.none ("External client \x27c1\x27 created"))
    (extResult true PyVal.none ("External client \x27c1\x27 would be created (check mode)"))
    rfl rfl

/-! ## C10: the network evaluator ignores the islocal field -/

theorem lookupd_setKey (d : List (String × PyVal)) (k : String) (v : PyVal) (f : String) :
    lookupd (setKey d k v) f = if (k == f) = true then some v else lookupd d f := by
  induction d with
  | nil =>
      by_cases h : (k == f) = true <;> simp [setKey, lookupd, h]
  | cons kv rest ih =>
      rcases kv with ⟨k2, w⟩
      by_cases h2 : (k2 == k) = true
      · have hk2 : k2 = k := by simpa using h2
        subst hk2
        by_cases hf : (k2 == f) = true <;> simp [setKey, lookupd, hf]
      · by_cases hf : (k2 == f) = true
        · have hk2f : k2 = f := by simpa using hf
          subst hk2f
          have hkf : (k == k2) = false := by
            rcases Bool.eq_false_or_eq_true (k == k2) with hb | hb
            · exfalso
              have hke : k = k2 := by simpa using hb
              exact h2 (by simp [hke])
            · exact hb
          simp [setKey, lookupd, h2, hkf]
        · simp [setKey, lookupd, h2, hf, ih]

theorem lookupd_eraseKey (d : List (String × PyVal)) (k f : String)
    (hkf : (k == f) = false) :
    lookupd (eraseKey d k) f = lookupd d f := by
  induction d with
  | nil => rfl
  | cons kv rest ih =>
      rcases kv with ⟨k2, w⟩
      by_cases h2 : (k2 == k) = true
      · have hk2 : k2 = k := by simpa using h2
        subst hk2
        simp [eraseKey, lookupd, hkf]
      · by_cases hf : (k2 == f) = true <;> simp [eraseKey, lookupd, h2, hf, ih]

theorem netFieldOk_congr (e1 e2 d1 d2 : List (String × PyVal)) (f : String)
    (he : lookupd e1 f = lookupd e2 f) (hd : lookupd d1 f = lookupd d2 f) :
    netFieldOk e1 d1 f = netFieldOk e2 d2 f := by
  unfold netFieldOk
  simp only [containsKey, dictGet, he, hd]

theorem all_congr_strs (l : List String) (p q : String → Bool)
    (h : ∀ x ∈ l, p x = q x) : l.all p = l.all q := by
  induction l with
  | nil => rfl
  | cons a as ih =>
      simp only [List.all_cons, h a (by simp)]
      rw [ih (fun x hx => h x (by simp [hx]))]

theorem networks_equal_congr (e1 e2 d1 d2 : List (String × PyVal))
    (h : ∀ f, f ∈ comparableFields →
      lookupd e1 f = lookupd e2 f ∧ lookupd d1 f = lookupd d2 f) :
    networks_equal e1 d1 = networks_equal e2 d2 := by
  unfold networks_equal
  exact all_congr_strs _ _ _
    (fun f hf => netFieldOk_congr e1 e2 d1 d2 f (h f hf).1 (h f hf).2)

theorem lookupd_self_pyEq (l : List (String × PyVal)) (f : String) (w : PyVal)
    (hall : l.all (fun kv => pyEq kv.2 kv.2) = true) (h : lookupd l f = some w) :
    pyEq w w = true := by
  induction l with
  | nil => cases h
  | cons kv rest ih =>
      rcases kv with ⟨k, x⟩
      simp only [List.all_cons, Bool.and_eq_true] at hall
      by_cases hk : (k == f) = true
      · simp only [lookupd, hk, if_true, Option.some.injEq] at h
        exact h ▸ hall.1
      · simp only [lookupd, hk, Bool.false_eq_true, if_false] at h
        exact ih hall.2 h

theorem netFieldOk_self (existing dd : List (String × PyVal)) (f : String)
    (hself : existing.all (fun kv => pyEq kv.2 kv.2) = true)
    (hdf : lookupd dd f = lookupd existing f) :
    netFieldOk existing dd f = true := by
  unfold netFieldOk
  rw [hdf]
  cases hle : lookupd existing f with
  | none => rfl
  | some v0 =>
      have hck : containsKey existing f = true := by simp [containsKey, hle]
      have hv0 : pyEq v0 v0 = true := lookupd_self_pyEq existing f v0 hself hle
      simp only [hck, Bool.not_true, Bool.false_and, Bool.false_eq_true, if_false,
        dictGet, hle]
      cases v0 with
      | bool b => cases b <;> simp [pyMem, boolTruthyLits, pyEq]
      | none => simp [pyEq, pyMem]
      | int n => simp [pyEq, pyMem]
      | str s =>
          by_cases hs : s = ""
          · subst hs
            simp [pyEq, pyMem]
          · simp [pyEq, pyMem, hs]
      | list l0 =>
          have h1 : pyEq (PyVal.list l0) (PyVal.str "") = false := by simp [pyEq]
          simp only [h1, Bool.false_and, Bool.false_eq_true, if_false]
          exact hv0
      | dict fs =>
          have h1 : pyEq (PyVal.dict fs) (PyVal.str "") = false := by simp [pyEq]
          simp only [h1, Bool.false_and, Bool.false_eq_true, if_false]
          exact hv0

/-- C10: the verdict of the network evaluator never depends on the
`islocal` field - setting or removing it on either argument leaves
`networks_equal` unchanged - so a desired state that differs from the
remote network only in the locality flag (every stored value being
self-equal under Python `==`, as every real value is) is judged equal,
and the present-state reconciler then reports no change and issues no
call. -/
theorem c10_islocal_independence (existing desired : List (String × PyVal)) (v : PyVal) :
    (networks_equal (setKey existing "islocal" v) desired = networks_equal existing desired) ∧
    (networks_equal (eraseKey existing "islocal") desired = networks_equal existing desired) ∧
    (networks_equal existing (setKey desired "islocal" v) = networks_equal existing desired) ∧
    (networks_equal existing (eraseKey desired "islocal") = networks_equal existing desired) ∧
    (existing.all (fun kv => pyEq kv.2 kv.2) = true →
      networks_equal existing (setKey existing "islocal" v) = true) ∧
    (∀ (check_mode : Bool) (respond : ApiCall → PyVal) (nm : String),
      existing ≠ [] →
      existing.all (fun kv => pyEq kv.2 kv.2) = true →
      manage_network check_mode respond nm "present" (setKey existing "islocal" v)
          (some existing) =
        ({ changed := false, resource := PyVal.dict existing,
           msg := "Network \x27" ++ nm ++ "\x27 already exists with desired configuration" },
         [])) := by
  have hni : ∀ f ∈ comparableFields, ("islocal" == f) = false := by decide
  have hset : ∀ f ∈ comparableFields,
      lookupd (setKey existing "islocal" v) f = lookupd existing f := by
    intro f hf
    rw [lookupd_setKey]
    simp [hni f hf]
  have hsetd : ∀ f ∈ comparableFields,
      lookupd (setKey desired "islocal" v) f = lookupd desired f := by
    intro f hf
    rw [lookupd_setKey]
    simp [hni f hf]
  have hkey : existing.all (fun kv => pyEq kv.2 kv.2) = true →
      networks_equal existing (setKey existing "islocal" v) = true := by
    intro hself
    unfold networks_equal
    rw [List.all_eq_true]
    intro f hf
    exact netFieldOk_self existing _ f hself (hset f hf)
  refine ⟨?_, ?_, ?_, ?_, hkey, ?_⟩
  · exact networks_equal_congr _ _ _ _ (fun f hf => ⟨hset f hf, rfl⟩)
  · exact networks_equal_congr _ _ _ _
      (fun f hf => ⟨lookupd_eraseKey existing "islocal" f (hni f hf), rfl⟩)
  · exact networks_equal_congr _ _ _ _ (fun f hf => ⟨rfl, hsetd f hf⟩)
  · exact networks_equal_congr _ _ _ _
      (fun f hf => ⟨rfl, lookupd_eraseKey desired "islocal" f (hni f hf)⟩)
  · intro check_mode respond nm hne hself
    have hie : existing.isEmpty = false := by
      cases existing with
      | nil => exact absurd rfl hne
      | cons a l => rfl
    simp [manage_network, observedTruthy, hie, hkey hself]

/-- C10 witness: the independence applied to a concrete network object
and desired state differing only in `islocal`. -/
theorem c10_witness :
    manage_network false (fun _ => PyVal.none) "net1" "present"
        (setKey [("addressrange", PyVal.str "10.0.0.0/24")] "islocal" (PyVal.bool true))
        (some [("addressrange", PyVal.str "10.0.0.0/24")]) =
      ({ changed := false,
         resource := PyVal.dict [("addressrange", PyVal.str "10.0.0.0/24")],
         msg := "Network \x27net1\x27 already exists with desired configuration" }, []) :=
  (c10_islocal_independence [("addressrange", PyVal.str "10.0.0.0/24")] [] (PyVal.bool true)).2.2.2.2.2
    false (fun _ => PyVal.none) "net1" (by simp)
    (by simp [pyEq])
